import Mathlib

/-!
Verification of the browserker DOM mirror, orchestrator and CLI against a
shallow Lean embedding of the Go source.

Source files embedded:
  * scanner/browser/element.go  — the Element state machine of the DOM mirror
  * scanner/browserk_scanner.go — the scan orchestrator (Init/Start/Stop)
  * clicmds/crawler.go          — the CLI entry wiring

Conventions of the embedding:
  * Remote debugger-protocol calls are modelled by oracle arguments of type
    `Except ElemErr α`: the value the protocol layer would hand back.  The
    embedded function routes the element state and the oracle value exactly the
    way the Go body does.
  * Go maps are association lists with last-write-wins insert (`mapInsert`) and
    zero-value lookup (`mapLookup`).
  * A Go nil pointer inside a `[]*gcdapi.DOMNode` slice is `none`; a nil slice
    is a `none` wrapping the list.
  * Box-model points are `float64` in the source; every claim evaluates them at
    integral coordinates, where Go's `int(x)` truncation is the identity, so
    points are carried as `Int` and Go's truncated integer division is
    `Int.tdiv`.
  * Blocking (`WaitForReady`'s three-way select) is modelled by a value naming
    which select arm fires first.
  * The lock discipline of element.go is modelled separately as per-function
    step traces (`Step`), transcribed in source order.
-/

namespace Browserker

/-- Standard browser node types (browser/browser constants in the source). -/
def NodeTextType : Int := 3

/-- DOCUMENT_NODE. -/
def NodeDocumentType : Int := 9

/-- The fields of `gcdapi.DOMNode` that element.go reads.  `children` is
`none` when the Go slice is nil; an entry is `none` when the Go pointer is
nil.  `attributes` is the flat name/value array of the protocol. -/
inductive DOMNode : Type where
  | mk (nodeId : Int) (nodeType : Int) (nodeName : String) (nodeValue : String)
       (childNodeCount : Int) (attributes : List String)
       (children : Option (List (Option DOMNode))) (frameId : String)

def DOMNode.nodeId : DOMNode → Int
  | .mk i _ _ _ _ _ _ _ => i

def DOMNode.nodeType : DOMNode → Int
  | .mk _ t _ _ _ _ _ _ => t

def DOMNode.nodeName : DOMNode → String
  | .mk _ _ n _ _ _ _ _ => n

def DOMNode.nodeValue : DOMNode → String
  | .mk _ _ _ v _ _ _ _ => v

def DOMNode.childNodeCount : DOMNode → Int
  | .mk _ _ _ _ c _ _ _ => c

def DOMNode.attributes : DOMNode → List String
  | .mk _ _ _ _ _ a _ _ => a

def DOMNode.children : DOMNode → Option (List (Option DOMNode))
  | .mk _ _ _ _ _ _ cs _ => cs

def DOMNode.frameId : DOMNode → String
  | .mk _ _ _ _ _ _ _ f => f

/-- Replace the children slice of a node, keeping every other field. -/
def DOMNode.withChildren : DOMNode → Option (List (Option DOMNode)) → DOMNode
  | .mk i t n v c a _ f, cs => .mk i t n v c a cs f

/-- The typed error values of element.go (`ErrIncorrectElementType`,
`ErrInvalidElement`, `ErrElementHasNoChildren`, `ErrElementNotReady`,
`ErrInvalidDimensions`), plus `remote` for an error surfaced by the
debugger-protocol layer itself. -/
inductive ElemErr : Type where
  | incorrectElementType (expected : String) (nodeName : String)
  | invalidElement
  | elementHasNoChildren
  | elementNotReady
  | invalidDimensions (message : String)
  | remote (message : String)
deriving DecidableEq, Repr

/-- Go map as an association list: last-write-wins insert. -/
def mapInsert (m : List (String × String)) (k v : String) : List (String × String) :=
  if m.any (fun p => p.1 = k) then
    m.map (fun p => if p.1 = k then (k, v) else p)
  else
    m ++ [(k, v)]

/-- Go map lookup: the value stored under `k`, if any. -/
def mapLookup (m : List (String × String)) (k : String) : Option String :=
  (m.find? (fun p => p.1 = k)).map Prod.snd

/-- Go `delete(m, k)`. -/
def mapDelete (m : List (String × String)) (k : String) : List (String × String) :=
  m.filter (fun p => ¬ p.1 = k)

/-- The Element of element.go.  `gateCloseCount` counts executions of
`close(e.readyGate)`: the Go channel close is a one-shot broadcast, and a
second close would fault, so the count is observable.  `ready` and
`invalidated` are the two booleans of the source; the spec's three readiness
states are NotReady (`ready = false`), Ready (`ready ∧ ¬invalidated`) and
ReadyInvalidated (`ready ∧ invalidated`). -/
structure Element : Type where
  attributes : List (String × String)
  nodeName : String
  characterData : String
  childNodeCount : Int
  nodeType : Int
  depth : Int
  node : Option DOMNode
  gateCloseCount : Nat
  ID : Int
  ready : Bool
  invalidated : Bool

/-- `newElement`: a NotReady placeholder holding only an id and a depth. -/
def newElement (nodeID depth : Int) : Element :=
  { attributes := [], nodeName := "", characterData := "", childNodeCount := 0,
    nodeType := 0, depth := depth, node := none, gateCloseCount := 0,
    ID := nodeID, ready := false, invalidated := false }

/-- `updateAttribute`: store a name/value pair in the attribute map. -/
def updateAttribute (e : Element) (name value : String) : Element :=
  { e with attributes := mapInsert e.attributes name value }

/-- `removeAttribute`: delete a name from the attribute map. -/
def removeAttribute (e : Element) (name : String) : Element :=
  { e with attributes := mapDelete e.attributes name }

/-- `updateCharacterData`. -/
def updateCharacterData (e : Element) (newValue : String) : Element :=
  { e with characterData := newValue }

/-- `updateChildNodeCount`. -/
def updateChildNodeCount (e : Element) (newValue : Int) : Element :=
  { e with childNodeCount := newValue }

/-- The attribute loop of `populateElement`: `updateAttribute` on each
consecutive name/value pair of the protocol's flat attribute array (the
protocol always delivers an even-length array). -/
def applyAttributePairs (e : Element) : List String → Element
  | name :: value :: rest => applyAttributePairs (updateAttribute e name value) rest
  | _ => e

/-- The first, locked block of `populateElement`: copy the node data into the
element's fields (character data only for text nodes). -/
def populateCopy (e : Element) (node : DOMNode) (depth : Int) : Element :=
  { e with node := some node, ID := node.nodeId, depth := depth,
           nodeType := node.nodeType, nodeName := node.nodeName.toLower,
           childNodeCount := node.childNodeCount,
           characterData :=
             if node.nodeType = NodeTextType then node.nodeValue
             else e.characterData }

/-- `populateElement`: copy the node data into the element, run the attribute
loop, then close the readiness gate if and only if it has not fired before,
then mark ready. -/
def populateElement (e : Element) (node : DOMNode) (depth : Int) : Element :=
  let e2 := applyAttributePairs (populateCopy e node depth) node.attributes
  let e3 :=
    if e2.ready then e2
    else { e2 with gateCloseCount := e2.gateCloseCount + 1 }
  { e3 with ready := true }

/-- A sequence of populate calls applied in order. -/
def populateSeq (e : Element) (calls : List (DOMNode × Int)) : Element :=
  calls.foldl (fun acc c => populateElement acc c.1 c.2) e

/-- `IsReady`: data has arrived and the node has not been removed. -/
def IsReady (e : Element) : Bool :=
  e.ready && !e.invalidated

/-- `IsInvalid`. -/
def IsInvalid (e : Element) : Bool :=
  e.invalidated

/-- `setInvalidated`. -/
def setInvalidated (e : Element) (invalid : Bool) : Element :=
  { e with invalidated := invalid }

/-- Which arm of `WaitForReady`'s select fires first when the element is not
already ready: the readiness gate closing, the element-timeout timer, or the
tab's exit channel. -/
inductive WaitEvent : Type where
  | gateClosed
  | timeoutFired
  | tabExited
deriving DecidableEq, Repr

/-- `WaitForReady`: immediate success when `ready`; otherwise the outcome of
the three-way select.  `none` is success, `some err` the returned error. -/
def WaitForReady (e : Element) (race : WaitEvent) : Option ElemErr :=
  if e.ready then none
  else
    match race with
    | .gateClosed => none
    | .timeoutFired => some .elementNotReady
    | .tabExited => some .elementNotReady

/-- `GetSource`: checks only invalidation, then passes the remote
`DOM.GetOuterHTML` result through.  (The source reads `e.ID` under the read
lock first; the id does not affect the returned value here.) -/
def GetSource (e : Element) (remoteOuterHTML : Except ElemErr String) :
    Except ElemErr String :=
  if e.invalidated then .error .invalidElement
  else remoteOuterHTML

/-- `IsDocument`: requires ready, then compares the node type. -/
def IsDocument (e : Element) : Except ElemErr Bool :=
  if ¬ e.ready then .error .elementNotReady
  else .ok (decide (e.nodeType = NodeDocumentType))

/-- `FrameID`: requires `IsReady`, then returns the node's frame id for a
document and the empty string otherwise.  (A ready element always carries a
node; a missing node would fault in the source.) -/
def FrameID (e : Element) : Except ElemErr String :=
  if ¬ IsReady e then .error .elementNotReady
  else
    match IsDocument e with
    | .error err => .error err
    | .ok false => .ok ""
    | .ok true => .ok ((e.node.map DOMNode.frameId).getD "")

/-- `NodeID`. -/
def NodeID (e : Element) : Int :=
  e.ID

/-- `GetEventListeners`: resolve the node to a remote object, then fetch its
listeners; no readiness or invalidation check. -/
def GetEventListeners (resolveNode : Except ElemErr String)
    (listenersOf : String → Except ElemErr (List String)) :
    Except ElemErr (List String) :=
  match resolveNode with
  | .error err => .error err
  | .ok rro => listenersOf rro

/-- `GetDebuggerDOMNode`: requires `IsReady` and not invalidated. -/
def GetDebuggerDOMNode (e : Element) : Except ElemErr (Option DOMNode) :=
  if ¬ IsReady e then .error .elementNotReady
  else if e.invalidated then .error .invalidElement
  else .ok e.node

/-- `GetChildNodeIds`: requires ready and a non-nil children slice.  (A nil
entry in the slice would fault in the source; its id is read directly.) -/
def GetChildNodeIds (e : Element) : Except ElemErr (List Int) :=
  if ¬ e.ready then .error .elementNotReady
  else
    match e.node with
    | none => .error .elementHasNoChildren
    | some nd =>
      match nd.children with
      | none => .error .elementHasNoChildren
      | some cs => .ok (cs.map (fun c => (c.map DOMNode.nodeId).getD 0))

/-- `GetTagName`. -/
def GetTagName (e : Element) : Except ElemErr String :=
  if ¬ e.ready then .error .elementNotReady
  else .ok e.nodeName

/-- `GetNodeType`. -/
def GetNodeType (e : Element) : Except ElemErr Int :=
  if ¬ e.ready then .error .elementNotReady
  else .ok e.nodeType

/-- `GetCharacterData`. -/
def GetCharacterData (e : Element) : Except ElemErr String :=
  if ¬ e.ready then .error .elementNotReady
  else .ok e.characterData

/-- `IsEnabled`: enabled unless a `disabled` attribute is present and is
`"true"` or empty. -/
def IsEnabled (e : Element) : Except ElemErr Bool :=
  if ¬ e.ready then .error .elementNotReady
  else
    match mapLookup e.attributes "disabled" with
    | none => .ok true
    | some disabled =>
      if disabled = "true" ∨ disabled = "" then .ok false else .ok true

/-- `IsSelected`: a `checked` attribute present and not `"false"`. -/
def IsSelected (e : Element) : Except ElemErr Bool :=
  if ¬ e.ready then .error .elementNotReady
  else
    match mapLookup e.attributes "checked" with
    | some checked => .ok (decide (¬ checked = "false"))
    | none => .ok false

/-- `GetCSSInlineStyleText`: passes the remote `CSS.GetInlineStylesForNode`
result through; no readiness or invalidation check. -/
def GetCSSInlineStyleText (remoteStyles : Except ElemErr (String × String)) :
    Except ElemErr (String × String) :=
  remoteStyles

/-- `GetComputedCSSStyle`: folds the remote style list into a name/value map;
no readiness or invalidation check. -/
def GetComputedCSSStyle (remoteStyles : Except ElemErr (List (String × String))) :
    Except ElemErr (List (String × String)) :=
  match remoteStyles with
  | .error err => .error err
  | .ok styles => .ok (styles.foldl (fun m s => mapInsert m s.1 s.2) [])

/-- `GetAttributes`: fetch the flat attribute array remotely (no readiness or
invalidation check), store each pair via `updateAttribute`, and return the
element's merged attribute map.  Returns the updated element as well, since
the source mutates it. -/
def GetAttributes (e : Element) (remoteAttrs : Except ElemErr (List String)) :
    Element × Except ElemErr (List (String × String)) :=
  match remoteAttrs with
  | .error err => (e, .error err)
  | .ok attr =>
    let e2 := applyAttributePairs e attr
    (e2, .ok e2.attributes)

/-- `GetAttribute`: empty string when the fetch fails or the name is absent
(Go map indexing yields the zero value). -/
def GetAttribute (e : Element) (remoteAttrs : Except ElemErr (List String))
    (name : String) : String :=
  match (GetAttributes e remoteAttrs).2 with
  | .error _ => ""
  | .ok attr => (mapLookup attr name).getD ""

/-- `HasAttribute`: false when the fetch fails, otherwise membership in the
merged attribute map. -/
def HasAttribute (e : Element) (remoteAttrs : Except ElemErr (List String))
    (name : String) : Bool :=
  match (GetAttributes e remoteAttrs).2 with
  | .error _ => false
  | .ok attr => (mapLookup attr name).isSome

/-- `SetAttributeValue`: issue the remote set, and on success store the pair
locally; on failure return the error with the element unchanged. -/
def SetAttributeValue (e : Element) (remoteSet : Except ElemErr Unit)
    (name value : String) : Element × Option ElemErr :=
  match remoteSet with
  | .error err => (e, some err)
  | .ok _ => ({ e with attributes := mapInsert e.attributes name value }, none)

/-- `Clear`: requires ready; `SetNodeValue` for a textarea, a `value`
attribute reset for an input, a wrong-type error otherwise. -/
def Clear (e : Element) (remoteSetNodeValue remoteSetAttr : Option ElemErr) :
    Option ElemErr :=
  if ¬ e.ready then some .elementNotReady
  else if e.nodeName = "textarea" then remoteSetNodeValue
  else if e.nodeName = "input" then remoteSetAttr
  else some (.incorrectElementType "textarea or input" e.nodeName)

/-- `Dimensions`: passes the remote `DOM.GetBoxModel` content quad through; no
readiness or invalidation check. -/
def Dimensions (remoteBoxModel : Except ElemErr (List Int)) :
    Except ElemErr (List Int) :=
  remoteBoxModel

/-- The summation loop of `centroid`: points at even offsets into the x sum,
points at odd offsets into the y sum. -/
def sumXY : List Int → Int × Int
  | x :: y :: rest =>
    let s := sumXY rest
    (x + s.1, y + s.2)
  | _ => (0, 0)

/-- The divisor of `centroid`'s averaging step, `pointLen / 2` (a nonnegative
Go `int`, so carried as `Nat`).  The source divides by it with Go integer
division, which faults when it is zero. -/
def centroidDivisor (points : List Int) : Nat :=
  points.length / 2

/-- `centroid`: reject an odd-length point list, otherwise average the x and y
coordinates with Go's truncated integer division (`Int.tdiv`). -/
def centroid (points : List Int) : Except ElemErr (Int × Int) :=
  let pointLen := points.length
  if pointLen % 2 ≠ 0 then
    .error (.invalidDimensions "number of points are not divisible by two")
  else
    let s := sumXY points
    .ok (Int.tdiv s.1 (centroidDivisor points : Int),
         Int.tdiv s.2 (centroidDivisor points : Int))

/-- `addChild`: append to the node's children (allocating the slice if nil)
and increment the counter; a placeholder without a node is left unchanged. -/
def addChild (e : Element) (child : Option DOMNode) : Element :=
  match e.node with
  | none => e
  | some nd =>
    let cs := nd.children.getD []
    { e with node := some (nd.withChildren (some (cs ++ [child]))),
             childNodeCount := e.childNodeCount + 1 }

/-- The scan of `removeChild`: drop the first non-nil entry whose id matches,
reporting whether one was found (the loop breaks at the first match). -/
def removeChildList (removedNodeID : Int) :
    List (Option DOMNode) → List (Option DOMNode) × Bool
  | [] => ([], false)
  | c :: rest =>
    match c with
    | some ch =>
      if ch.nodeId = removedNodeID then (rest, true)
      else
        let r := removeChildList removedNodeID rest
        (c :: r.1, r.2)
    | none =>
      let r := removeChildList removedNodeID rest
      (c :: r.1, r.2)

/-- `removeChild`: a no-op without a node or with a nil children slice;
otherwise splice out the first matching child and decrement the counter if one
matched. -/
def removeChild (e : Element) (removedNodeID : Int) : Element :=
  match e.node with
  | none => e
  | some nd =>
    match nd.children with
    | none => e
    | some cs =>
      let r := removeChildList removedNodeID cs
      { e with node := some (nd.withChildren (some r.1)),
               childNodeCount :=
                 if r.2 then e.childNodeCount - 1 else e.childNodeCount }

/-- The children slice of an element's node, when both exist. -/
def elementChildren (e : Element) : Option (List (Option DOMNode)) :=
  match e.node with
  | none => none
  | some nd => nd.children

/-- Is a non-nil child with this id present in the slice? -/
def childIdPresent (cs : List (Option DOMNode)) (nodeID : Int) : Bool :=
  cs.any (fun c =>
    match c with
    | some ch => decide (ch.nodeId = nodeID)
    | none => false)

/-!  The lock discipline of element.go, modelled as per-function step traces
transcribed in source order.  `lockAcquire`/`lockRelease` cover both the
exclusive and the read side of the Element's RWMutex (either blocks the event
delivery path's writes). -/

/-- The configuration fields the orchestrator reads. -/
structure Config : Type where
  numBrowsers : Nat

/-- The orchestrator state the Start/Stop contract is about: the configured
pool size, the pool's currently idle lease count, whether scan cancellation
has been signalled, and whether the pool's resources have been released. -/
structure BrowserkState : Type where
  cfg : Config
  poolIdleLeases : Nat
  scanCancelled : Bool
  poolReleased : Bool

/-- The limit the Start loop's default arm passes to `crawlGraph.Find`
(`b.cfg.NumBrowsers` in the source). -/
def startFindLimit (b : BrowserkState) : Nat :=
  b.cfg.numBrowsers

/-- `Stop`: the body is `return nil`.  It neither signals cancellation nor
releases the pool; the state is returned untouched and no error is raised. -/
def Stop (b : BrowserkState) : BrowserkState × Option String :=
  (b, none)

/-!  Helper lemmas. -/

/-- The attribute loop touches only the attribute map. -/
theorem applyAttributePairs_fields : ∀ (l : List String) (e : Element),
    (applyAttributePairs e l).ready = e.ready ∧
    (applyAttributePairs e l).gateCloseCount = e.gateCloseCount ∧
    (applyAttributePairs e l).nodeName = e.nodeName ∧
    (applyAttributePairs e l).nodeType = e.nodeType ∧
    (applyAttributePairs e l).childNodeCount = e.childNodeCount ∧
    (applyAttributePairs e l).depth = e.depth ∧
    (applyAttributePairs e l).characterData = e.characterData ∧
    (applyAttributePairs e l).invalidated = e.invalidated
  | [], _ => by simp [applyAttributePairs]
  | [_], _ => by simp [applyAttributePairs]
  | a :: b :: rest, e => by
    simpa [applyAttributePairs, updateAttribute] using
      applyAttributePairs_fields rest (updateAttribute e a b)

/-- A populate call always leaves the element ready. -/
theorem populateElement_ready (e : Element) (nd : DOMNode) (d : Int) :
    (populateElement e nd d).ready = true :=
  rfl

/-- A populate call closes the gate exactly when the element was not yet
ready. -/
theorem populateElement_gate (e : Element) (nd : DOMNode) (d : Int) :
    (populateElement e nd d).gateCloseCount =
      (if e.ready then e.gateCloseCount else e.gateCloseCount + 1) := by
  have h := applyAttributePairs_fields nd.attributes (populateCopy e nd d)
  have hr : (applyAttributePairs (populateCopy e nd d) nd.attributes).ready
      = e.ready := h.1
  have hg : (applyAttributePairs (populateCopy e nd d) nd.attributes).gateCloseCount
      = e.gateCloseCount := h.2.1
  by_cases hb : e.ready
  · rw [hb] at hr
    simp [populateElement, hr, hg, hb]
  · have hb' : e.ready = false := by simpa using hb
    rw [hb'] at hr
    simp [populateElement, hr, hg, hb']

/-- A populate call installs the supplied node data. -/
theorem populateElement_fields (e : Element) (nd : DOMNode) (d : Int) :
    (populateElement e nd d).nodeName = nd.nodeName.toLower ∧
    (populateElement e nd d).nodeType = nd.nodeType ∧
    (populateElement e nd d).childNodeCount = nd.childNodeCount ∧
    (populateElement e nd d).depth = d ∧
    (populateElement e nd d).characterData =
      (if nd.nodeType = NodeTextType then nd.nodeValue else e.characterData) := by
  have h := applyAttributePairs_fields nd.attributes (populateCopy e nd d)
  by_cases hr : (applyAttributePairs (populateCopy e nd d) nd.attributes).ready
  · simp only [populateElement, hr, if_true]
    exact ⟨h.2.2.1.trans rfl, h.2.2.2.1.trans rfl, h.2.2.2.2.1.trans rfl,
      h.2.2.2.2.2.1.trans rfl, h.2.2.2.2.2.2.1.trans rfl⟩
  · have hr' : (applyAttributePairs (populateCopy e nd d) nd.attributes).ready
        = false := by simpa using hr
    simp only [populateElement, hr', Bool.false_eq_true, if_false]
    exact ⟨h.2.2.1.trans rfl, h.2.2.2.1.trans rfl, h.2.2.2.2.1.trans rfl,
      h.2.2.2.2.2.1.trans rfl, h.2.2.2.2.2.2.1.trans rfl⟩

/-- A populate sequence started on an already-ready element keeps it ready and
never touches the gate again. -/
theorem populateSeq_ready_gate : ∀ (calls : List (DOMNode × Int)) (e : Element),
    e.ready = true →
    (populateSeq e calls).ready = true ∧
    (populateSeq e calls).gateCloseCount = e.gateCloseCount
  | [], _, h => ⟨h, rfl⟩
  | c :: rest, e, h => by
    have h1 := populateElement_ready e c.1 c.2
    have h2 := populateElement_gate e c.1 c.2
    rw [h] at h2
    simp only [if_true, if_pos] at h2
    have ih := populateSeq_ready_gate rest (populateElement e c.1 c.2) h1
    refine ⟨?_, ?_⟩
    · simpa [populateSeq] using ih.1
    · have : (populateSeq (populateElement e c.1 c.2) rest).gateCloseCount
          = e.gateCloseCount := by rw [ih.2, h2]
      simpa [populateSeq] using this

/-- C1: Over any sequence of populate calls on one Element, readiness goes
from NotReady to Ready exactly once: the first `populateElement` call closes
the readiness gate (count 0 to 1), after the whole sequence the gate has still
been closed exactly once and the element is still Ready, and any later
populate call on a Ready element installs the new tag name, node type,
character data, child count and depth without resetting readiness and without
closing the gate again. -/
theorem populate_readiness_once (nodeID d0 : Int) (first : DOMNode × Int)
    (rest : List (DOMNode × Int)) (nd : DOMNode) (d : Int) :
    ((newElement nodeID d0).ready = false ∧
     (newElement nodeID d0).gateCloseCount = 0) ∧
    ((populateElement (newElement nodeID d0) first.1 first.2).ready = true ∧
     (populateElement (newElement nodeID d0) first.1 first.2).gateCloseCount = 1) ∧
    ((populateSeq (newElement nodeID d0) (first :: rest)).ready = true ∧
     (populateSeq (newElement nodeID d0) (first :: rest)).gateCloseCount = 1) ∧
    ((populateElement (populateSeq (newElement nodeID d0) (first :: rest)) nd d).ready = true ∧
     (populateElement (populateSeq (newElement nodeID d0) (first :: rest)) nd d).gateCloseCount = 1 ∧
     (populateElement (populateSeq (newElement nodeID d0) (first :: rest)) nd d).nodeName
       = nd.nodeName.toLower ∧
     (populateElement (populateSeq (newElement nodeID d0) (first :: rest)) nd d).nodeType
       = nd.nodeType ∧
     (populateElement (populateSeq (newElement nodeID d0) (first :: rest)) nd d).childNodeCount
       = nd.childNodeCount ∧
     (populateElement (populateSeq (newElement nodeID d0) (first :: rest)) nd d).depth = d) := by
  have hstart : (newElement nodeID d0).ready = false := rfl
  have hg0 : (newElement nodeID d0).gateCloseCount = 0 := rfl
  have h1r := populateElement_ready (newElement nodeID d0) first.1 first.2
  have h1g := populateElement_gate (newElement nodeID d0) first.1 first.2
  rw [hstart] at h1g
  simp only [Bool.false_eq_true, if_false, hg0] at h1g
  have hseq := populateSeq_ready_gate rest
    (populateElement (newElement nodeID d0) first.1 first.2) h1r
  have hseqView : populateSeq (newElement nodeID d0) (first :: rest)
      = populateSeq (populateElement (newElement nodeID d0) first.1 first.2) rest := by
    simp [populateSeq]
  have hNr : (populateSeq (newElement nodeID d0) (first :: rest)).ready = true := by
    rw [hseqView]; exact hseq.1
  have hNg : (populateSeq (newElement nodeID d0) (first :: rest)).gateCloseCount = 1 := by
    rw [hseqView, hseq.2, h1g]
  have hlaterG := populateElement_gate
    (populateSeq (newElement nodeID d0) (first :: rest)) nd d
  rw [hNr] at hlaterG
  simp only [if_true, if_pos] at hlaterG
  have hlaterF := populateElement_fields
    (populateSeq (newElement nodeID d0) (first :: rest)) nd d
  exact ⟨⟨hstart, hg0⟩, ⟨h1r, h1g⟩, ⟨hNr, hNg⟩,
    populateElement_ready _ nd d, by rw [hlaterG, hNg],
    hlaterF.1, hlaterF.2.1, hlaterF.2.2.1, hlaterF.2.2.2.1⟩

/-- C2: `WaitForReady` succeeds immediately when the element is already ready,
for every possible race outcome; when it is not ready, it succeeds exactly
when the readiness gate closes first, and returns the not-ready error when
the element timeout or the tab's exit signal fires first. -/
theorem waitForReady_spec (e : Element) (race : WaitEvent) :
    (e.ready = true → WaitForReady e race = none) ∧
    (e.ready = false →
      ((WaitForReady e race = none ↔ race = WaitEvent.gateClosed) ∧
       (¬ race = WaitEvent.gateClosed →
         WaitForReady e race = some ElemErr.elementNotReady))) := by
  constructor
  · intro h
    simp [WaitForReady, h]
  · intro h
    constructor
    · cases race <;> simp [WaitForReady, h]
    · intro hz
      cases race <;> simp_all [WaitForReady]

/-- C2 witness: a fresh placeholder whose timeout fires first gets the
not-ready error; one whose gate closes first succeeds. -/
theorem waitForReady_spec_witness :
    WaitForReady (newElement 1 0) WaitEvent.timeoutFired
      = some ElemErr.elementNotReady ∧
    WaitForReady (newElement 1 0) WaitEvent.gateClosed = none := by
  constructor
  · exact (((waitForReady_spec (newElement 1 0) WaitEvent.timeoutFired).2 rfl).2)
      (by decide)
  · exact (((waitForReady_spec (newElement 1 0) WaitEvent.gateClosed).2 rfl).1).mpr rfl

/-- C4: The centroid of the square `[0,0,10,0,10,10,0,10]` is `(5,5)` with no
error, and every odd-length point list yields the invalid-dimensions error
instead of an averaged result. -/
theorem centroid_square_and_odd :
    centroid [0, 0, 10, 0, 10, 10, 0, 10] = Except.ok (5, 5) ∧
    (∀ points : List Int, points.length % 2 = 1 →
      centroid points = Except.error
        (ElemErr.invalidDimensions "number of points are not divisible by two")) := by
  constructor
  · rfl
  · intro points h
    have hodd : points.length % 2 ≠ 0 := by omega
    simp [centroid, hodd]

/-- C4 witness: a one-point list is odd-length and is rejected. -/
theorem centroid_square_and_odd_witness :
    centroid [3] = Except.error
      (ElemErr.invalidDimensions "number of points are not divisible by two") :=
  centroid_square_and_odd.2 [3] (by decide)

/-- C9 counterexample: the empty point list passes the odd-length guard
(`0 % 2 = 0`) yet the averaging divisor `pointLen / 2` is zero there, so the
guarded division is not protected for every even-length list. -/
theorem centroid_divisor_empty_counterexample :
    (List.length ([] : List Int)) % 2 = 0 ∧ centroidDivisor [] = 0 := by
  constructor
  · rfl
  · rfl

/-- C9 (amended): for every non-empty point list that passes the odd-length
guard, the averaging divisor `pointLen / 2` is non-zero; the empty list also
passes the guard but makes the divisor zero. -/
theorem centroid_divisor_nonzero (points : List Int)
    (heven : points.length % 2 = 0) (hne : points ≠ []) :
    centroidDivisor points ≠ 0 := by
  have hlen : points.length ≠ 0 := by
    intro h
    exact hne (List.length_eq_zero.mp h)
  have h2 : 2 ≤ points.length := by omega
  simp only [centroidDivisor]
  omega

/-- C9 witness: a two-point list has a non-zero divisor. -/
theorem centroid_divisor_nonzero_witness : centroidDivisor [0, 0] ≠ 0 :=
  centroid_divisor_nonzero [0, 0] (by decide) (by decide)

/-- C6: code_bug evidence — on the Start loop's dispatch arm the limit handed
to the crawl graph's Find is the fixed configured pool size
(`b.cfg.NumBrowsers`), identical across every possible idle-lease count of
the pool; in particular with three configured browsers and zero idle leases
the loop still requests three navigations, so the batch size is not the
current spare lease capacity. -/
theorem start_find_limit_fixed (cfg : Config) (idle idle2 : Nat)
    (c r c2 r2 : Bool) :
    startFindLimit { cfg := cfg, poolIdleLeases := idle, scanCancelled := c,
                     poolReleased := r } = cfg.numBrowsers ∧
    startFindLimit { cfg := cfg, poolIdleLeases := idle, scanCancelled := c,
                     poolReleased := r } =
      startFindLimit { cfg := cfg, poolIdleLeases := idle2, scanCancelled := c2,
                       poolReleased := r2 } ∧
    startFindLimit { cfg := Config.mk 3, poolIdleLeases := 0,
                     scanCancelled := false, poolReleased := false } = 3 :=
  ⟨rfl, rfl, rfl⟩

/-- C7: code_bug evidence — Stop's body is `return nil`: it returns no error
and leaves the scan state untouched (so it is trivially idempotent and safe
to call at any time, twice included), but it does not signal cancellation and
does not release the pool's resources, contradicting the claimed shutdown
behaviour. -/
theorem stop_is_a_noop (b : BrowserkState) :
    Stop b = (b, none) ∧
    Stop (Stop b).1 = Stop b ∧
    (Stop b).1.scanCancelled = b.scanCancelled ∧
    (Stop b).1.poolReleased = b.poolReleased :=
  ⟨rfl, rfl, rfl, rfl⟩

/-- C3 counterexample: a freshly referenced placeholder is neither ready nor
invalidated, yet `GetSource` does not fail fast with the not-ready error — it
issues the remote fetch and returns its data. -/
theorem query_fail_fast_counterexample :
    (newElement 1 0).ready = false ∧
    (newElement 1 0).invalidated = false ∧
    GetSource (newElement 1 0) (Except.ok "<p>data</p>")
      = Except.ok "<p>data</p>" :=
  ⟨rfl, rfl, rfl⟩

/-- C3 (amended): the locally answered queries (tag name, node type,
character data, child ids, document check, enabled/selected flags), Clear,
FrameID and GetDebuggerDOMNode fail fast with the not-ready error whenever
the Element is not ready, and FrameID/GetDebuggerDOMNode also fail fast (with
the not-ready error) on an invalidated element; GetSource checks only
invalidation — it fails fast with the invalid-element error when invalidated
but passes the remote fetch result through even when the element is not
ready; the attribute, computed-style and geometry fetches issue the remote
command with no readiness or invalidation check at all and return its
result. -/
theorem query_fail_fast_amended (e : Element)
    (remoteS : Except ElemErr String) (remoteA : List String)
    (remoteB : Except ElemErr (List Int)) (r1 r2 : Option ElemErr)
    (styles : List (String × String)) :
    (e.ready = false →
      GetTagName e = Except.error ElemErr.elementNotReady ∧
      GetNodeType e = Except.error ElemErr.elementNotReady ∧
      GetCharacterData e = Except.error ElemErr.elementNotReady ∧
      IsEnabled e = Except.error ElemErr.elementNotReady ∧
      IsSelected e = Except.error ElemErr.elementNotReady ∧
      IsDocument e = Except.error ElemErr.elementNotReady ∧
      GetChildNodeIds e = Except.error ElemErr.elementNotReady ∧
      FrameID e = Except.error ElemErr.elementNotReady ∧
      GetDebuggerDOMNode e = Except.error ElemErr.elementNotReady ∧
      Clear e r1 r2 = some ElemErr.elementNotReady) ∧
    (e.invalidated = true →
      GetSource e remoteS = Except.error ElemErr.invalidElement ∧
      FrameID e = Except.error ElemErr.elementNotReady ∧
      GetDebuggerDOMNode e = Except.error ElemErr.elementNotReady) ∧
    (e.invalidated = false → GetSource e remoteS = remoteS) ∧
    ((GetAttributes e (Except.ok remoteA)).2
      = Except.ok (applyAttributePairs e remoteA).attributes) ∧
    (GetComputedCSSStyle (Except.ok styles)
      = Except.ok (styles.foldl (fun m s => mapInsert m s.1 s.2) [])) ∧
    (Dimensions remoteB = remoteB) := by
  refine ⟨?_, ?_, ?_, rfl, rfl, rfl⟩
  · intro h
    refine ⟨?_, ?_, ?_, ?_, ?_, ?_, ?_, ?_, ?_, ?_⟩ <;>
      simp [GetTagName, GetNodeType, GetCharacterData, IsEnabled, IsSelected,
        IsDocument, GetChildNodeIds, FrameID, GetDebuggerDOMNode, Clear,
        IsReady, h]
  · intro h
    refine ⟨?_, ?_, ?_⟩ <;>
      simp [GetSource, FrameID, GetDebuggerDOMNode, IsReady, h]
  · intro h
    simp [GetSource, h]

/-- C3 witness: the not-ready arm on a fresh placeholder, the invalidation arm
on an invalidated element, and the pass-through arm of GetSource. -/
theorem query_fail_fast_amended_witness :
    GetTagName (newElement 1 0) = Except.error ElemErr.elementNotReady ∧
    GetSource (setInvalidated (newElement 1 0) true) (Except.ok "s")
      = Except.error ElemErr.invalidElement ∧
    GetSource (newElement 1 0) (Except.ok "s") = Except.ok "s" := by
  refine ⟨?_, ?_, ?_⟩
  · exact ((query_fail_fast_amended (newElement 1 0) (Except.ok "s") []
      (Except.ok []) none none []).1 rfl).1
  · exact ((query_fail_fast_amended (setInvalidated (newElement 1 0) true)
      (Except.ok "s") [] (Except.ok []) none none []).2.1 rfl).1
  · exact (query_fail_fast_amended (newElement 1 0) (Except.ok "s") []
      (Except.ok []) none none []).2.2.1 rfl

/-- The scan of `removeChild` on a slice that holds no matching child returns
the slice unchanged and reports no match. -/
theorem removeChildList_not_found : ∀ (cs : List (Option DOMNode)) (nodeID : Int),
    childIdPresent cs nodeID = false →
    removeChildList nodeID cs = (cs, false)
  | [], _, _ => rfl
  | c :: rest, nodeID, h => by
    cases c with
    | some ch =>
      have hch : ¬ ch.nodeId = nodeID := by
        by_contra hc
        simp [childIdPresent, hc] at h
      have hrest : childIdPresent rest nodeID = false := by
        simp [childIdPresent] at h ⊢
        exact h.2
      simp [removeChildList, hch, removeChildList_not_found rest nodeID hrest]
    | none =>
      have hrest : childIdPresent rest nodeID = false := by
        simpa [childIdPresent] using h
      simp [removeChildList, removeChildList_not_found rest nodeID hrest]

/-- The scan of `removeChild` on a slice holding a matching child removes
exactly the first matching entry and reports the match. -/
theorem removeChildList_found : ∀ (cs : List (Option DOMNode)) (nodeID : Int),
    childIdPresent cs nodeID = true →
    ∃ pre ch post, cs = pre ++ (some ch) :: post ∧ ch.nodeId = nodeID ∧
      childIdPresent pre nodeID = false ∧
      removeChildList nodeID cs = (pre ++ post, true)
  | [], _, h => by simp [childIdPresent] at h
  | c :: rest, nodeID, h => by
    cases c with
    | some ch =>
      by_cases hch : ch.nodeId = nodeID
      · exact ⟨[], ch, rest, by simp, hch, by simp [childIdPresent],
          by simp [removeChildList, hch]⟩
      · have hrest : childIdPresent rest nodeID = true := by
          simp [childIdPresent, hch] at h ⊢
          exact h
        obtain ⟨pre, ch2, post, hsplit, hid, hpre, hrem⟩ :=
          removeChildList_found rest nodeID hrest
        refine ⟨some ch :: pre, ch2, post, by simp [hsplit], hid, ?_, ?_⟩
        · simp [childIdPresent, hch]
          simpa [childIdPresent] using hpre
        · simp [removeChildList, hch, hrem]
    | none =>
      have hrest : childIdPresent rest nodeID = true := by
        simpa [childIdPresent] using h
      obtain ⟨pre, ch2, post, hsplit, hid, hpre, hrem⟩ :=
        removeChildList_found rest nodeID hrest
      refine ⟨none :: pre, ch2, post, by simp [hsplit], hid, ?_, ?_⟩
      · simpa [childIdPresent] using hpre
      · simp [removeChildList, hrem]

/-- C5: On an Element whose node carries a populated children slice, a
ChildNodeRemoved application for an identifier present among the children
removes exactly the first matching child and decrements the child counter by
one, while an application for an absent identifier leaves the element — its
children slice and its counter — completely unchanged. -/
theorem removeChild_spec (e : Element) (nd : DOMNode)
    (cs : List (Option DOMNode)) (nodeID : Int)
    (hnode : e.node = some nd) (hcs : nd.children = some cs) :
    (childIdPresent cs nodeID = true →
      (removeChild e nodeID).childNodeCount = e.childNodeCount - 1 ∧
      ∃ pre ch post, cs = pre ++ (some ch) :: post ∧ ch.nodeId = nodeID ∧
        childIdPresent pre nodeID = false ∧
        elementChildren (removeChild e nodeID) = some (pre ++ post)) ∧
    (childIdPresent cs nodeID = false → removeChild e nodeID = e) := by
  constructor
  · intro hpres
    obtain ⟨pre, ch, post, hsplit, hid, hpre, hrem⟩ :=
      removeChildList_found cs nodeID hpres
    constructor
    · simp [removeChild, hnode, hcs, hrem]
    · refine ⟨pre, ch, post, hsplit, hid, hpre, ?_⟩
      simp [removeChild, hnode, hcs, hrem, elementChildren]
      cases nd with
      | mk i t n v c a cs0 f => simp [DOMNode.withChildren, DOMNode.children]
  · intro habs
    have hrem := removeChildList_not_found cs nodeID habs
    have hwc : nd.withChildren (some cs) = nd := by
      cases nd with
      | mk i t n v c a cs0 f =>
        simp [DOMNode.children] at hcs
        simp [DOMNode.withChildren, hcs]
    cases e with
    | mk at0 nn cd cnc nt dp node g id rdy inv =>
      simp at hnode
      simp [removeChild, hnode, hcs, hrem, hwc]

/-- C5 witness: in a three-entry slice (with a nil hole) removing id 8 drops
exactly that child and decrements the counter, and removing the absent id 99
changes nothing. -/
theorem removeChild_spec_witness :
    (removeChild
      { attributes := [], nodeName := "div", characterData := "",
        childNodeCount := 3, nodeType := 1, depth := 0,
        node := some (DOMNode.mk 1 1 "d" "" 3 []
          (some [some (DOMNode.mk 7 1 "a" "" 0 [] none ""), none,
                 some (DOMNode.mk 8 1 "b" "" 0 [] none "")]) ""),
        gateCloseCount := 1, ID := 1, ready := true, invalidated := false } 8
      ).childNodeCount = 2 ∧
    removeChild
      { attributes := [], nodeName := "div", characterData := "",
        childNodeCount := 3, nodeType := 1, depth := 0,
        node := some (DOMNode.mk 1 1 "d" "" 3 []
          (some [some (DOMNode.mk 7 1 "a" "" 0 [] none ""), none,
                 some (DOMNode.mk 8 1 "b" "" 0 [] none "")]) ""),
        gateCloseCount := 1, ID := 1, ready := true, invalidated := false } 99
      = { attributes := [], nodeName := "div", characterData := "",
          childNodeCount := 3, nodeType := 1, depth := 0,
          node := some (DOMNode.mk 1 1 "d" "" 3 []
            (some [some (DOMNode.mk 7 1 "a" "" 0 [] none ""), none,
                   some (DOMNode.mk 8 1 "b" "" 0 [] none "")]) ""),
          gateCloseCount := 1, ID := 1, ready := true, invalidated := false } := by
  constructor
  · have h := (removeChild_spec
      { attributes := [], nodeName := "div", characterData := "",
        childNodeCount := 3, nodeType := 1, depth := 0,
        node := some (DOMNode.mk 1 1 "d" "" 3 []
          (some [some (DOMNode.mk 7 1 "a" "" 0 [] none ""), none,
                 some (DOMNode.mk 8 1 "b" "" 0 [] none "")]) ""),
        gateCloseCount := 1, ID := 1, ready := true, invalidated := false }
      (DOMNode.mk 1 1 "d" "" 3 []
        (some [some (DOMNode.mk 7 1 "a" "" 0 [] none ""), none,
               some (DOMNode.mk 8 1 "b" "" 0 [] none "")]) "")
      [some (DOMNode.mk 7 1 "a" "" 0 [] none ""), none,
       some (DOMNode.mk 8 1 "b" "" 0 [] none "")] 8 rfl rfl).1 (by decide)
    exact h.1
  · exact (removeChild_spec
      { attributes := [], nodeName := "div", characterData := "",
        childNodeCount := 3, nodeType := 1, depth := 0,
        node := some (DOMNode.mk 1 1 "d" "" 3 []
          (some [some (DOMNode.mk 7 1 "a" "" 0 [] none ""), none,
                 some (DOMNode.mk 8 1 "b" "" 0 [] none "")]) ""),
        gateCloseCount := 1, ID := 1, ready := true, invalidated := false }
      (DOMNode.mk 1 1 "d" "" 3 []
        (some [some (DOMNode.mk 7 1 "a" "" 0 [] none ""), none,
               some (DOMNode.mk 8 1 "b" "" 0 [] none "")]) "")
      [some (DOMNode.mk 7 1 "a" "" 0 [] none ""), none,
       some (DOMNode.mk 8 1 "b" "" 0 [] none "")] 99 rfl rfl).2 (by decide)

/-- C10: for every attribute name, `GetAttribute` returns the empty string —
not an error — when the remote attribute fetch fails and when the attribute
is absent from the merged attribute map, and `HasAttribute` returns false —
not an error — when the fetch fails; neither propagates the fetch error. -/
theorem attribute_fetch_never_propagates (e : Element) (name : String)
    (err : ElemErr) (attrs : List String) :
    GetAttribute e (Except.error err) name = "" ∧
    HasAttribute e (Except.error err) name = false ∧
    (mapLookup (applyAttributePairs e attrs).attributes name = none →
      GetAttribute e (Except.ok attrs) name = "") := by
  refine ⟨rfl, rfl, ?_⟩
  intro h
  simp [GetAttribute, GetAttributes, h]

/-- C10 witness: a failing fetch yields the empty string and false, and an
attribute absent after a successful fetch yields the empty string. -/
theorem attribute_fetch_never_propagates_witness :
    GetAttribute (newElement 1 0) (Except.error ElemErr.invalidElement) "x" = "" ∧
    GetAttribute (newElement 1 0) (Except.ok ["a", "1"]) "x" = "" := by
  constructor
  · exact (attribute_fetch_never_propagates (newElement 1 0) "x"
      ElemErr.invalidElement ["a", "1"]).1
  · exact (attribute_fetch_never_propagates (newElement 1 0) "x"
      ElemErr.invalidElement ["a", "1"]).2.2 rfl

end Browserker
